import Mathlib

/-!
# Verification of the field-overlay synchronization engine (react-pdf-editor)

Shallow embedding of the core logic of `src/lib/PDFEditor.tsx`:
the geometry mapper (overlay placement in `renderPages`), the zoom
controller (`zoomLevels`, initial `zoomLevel` state, `resetViewScale`),
the page/field loader (`loadFormFieldsAndPages`), the field reconciler
(`getAllFieldsValue` and the save-time loop of `onSaveAs`), the
`maxPageWidth` capture of `renderPages`, the busy flag of the save
button, and the document-load effect.

Numeric page-space quantities are modelled over `ℚ`; JavaScript
object lookups returning `undefined` on a missing key are modelled with
`Option`.
-/

namespace PDFEditorProof

/-! ## Geometry Mapper: overlay placement in `renderPages`
(PDFEditor.tsx lines 212-235) -/

/-- A field rectangle `[llx, lly, urx, ury]` as stored in
`PDFFormRawField.rect`: lower-left and upper-right corners in page-space
coordinates (origin bottom-left). -/
structure FieldRect where
  llx : ℚ
  lly : ℚ
  urx : ℚ
  ury : ℚ
deriving DecidableEq, Repr

/-- The computed inline style of one overlay input control:
`style.left/top/width/height` in CSS pixels (origin top-left). -/
structure OverlayPlacement where
  left : ℚ
  top : ℚ
  width : ℚ
  height : ℚ
deriving DecidableEq, Repr

/-- `field.rect.map((x) => x * scale)` (PDFEditor.tsx line 216). -/
def scaleFieldRect (r : FieldRect) (scale : ℚ) : FieldRect :=
  { llx := r.llx * scale
    lly := r.lly * scale
    urx := r.urx * scale
    ury := r.ury * scale }

/-- The overlay placement of `renderPages` (PDFEditor.tsx lines 225-233):
after scaling the rect, `left = rect[0]`, `top = viewport.height - rect[3]`,
`width = rect[2] - rect[0]`, `height = rect[3] - rect[1]`. -/
def placeOverlay (r : FieldRect) (pageViewportHeight scale : ℚ) : OverlayPlacement :=
  let rect := scaleFieldRect r scale
  { left := rect.llx
    top := pageViewportHeight - rect.ury
    width := rect.urx - rect.llx
    height := rect.ury - rect.lly }

/-! ## Zoom Controller
(PDFEditor.tsx lines 68-70, 106, 253-270) -/

/-- The fixed ascending list of allowed scale factors
(PDFEditor.tsx lines 68-70). -/
def zoomLevels : List ℚ :=
  [0.67, 0.75, 0.8, 0.9, 1.0, 1.1, 1.25, 1.5, 1.75, 2.0, 2.5, 3.0, 3.5, 4.0]

/-- The initial zoom index: `useState(6)` (PDFEditor.tsx line 106). -/
def initialZoomLevel : Nat := 6

/-- `Math.abs(x)` on a rational. -/
def jsAbs (x : ℚ) : ℚ := if x < 0 then -x else x

/-- The scan loop of `resetViewScale` (PDFEditor.tsx lines 257-265):
`minDifference` starts at `Infinity` and `closestZoomLevel` at
`undefined` (both modelled by `none`); each iteration takes index `i`
when `difference < minDifference`. Returns the final
`(minDifference, closestZoomLevel)` pair. -/
def nearestLoop (scaleValue : ℚ) : Option ℚ × Option Nat :=
  zoomLevels.enum.foldl
    (fun acc p =>
      let difference := jsAbs (scaleValue - p.2)
      match acc.1 with
      | none => (some difference, some p.1)
      | some minDifference =>
          if difference < minDifference then (some difference, some p.1) else acc)
    (none, none)

/-- JavaScript `v || fallback` on an optional number: `undefined` and the
number `0` are both falsy. -/
def jsOrNat (v : Option Nat) (fallback : Nat) : Nat :=
  match v with
  | none => fallback
  | some 0 => fallback
  | some i => i

/-- The index `resetViewScale` stores for a given target scale:
`setZoomLevel(closestZoomLevel || 6)` (PDFEditor.tsx line 266). -/
def resetViewScaleIndex (scaleValue : ℚ) : Nat :=
  jsOrNat (nearestLoop scaleValue).2 6

/-- `resetViewScale(divWidth)` (PDFEditor.tsx lines 253-270): the body
runs only under the truthiness guard `divWidth && maxPageWidth`, with
`scaleValue = divWidth / maxPageWidth`; `none` models "no update". -/
def resetViewScale (divWidth : Option ℚ) (maxPageWidth : ℚ) : Option Nat :=
  match divWidth with
  | none => none
  | some w => if w ≠ 0 ∧ maxPageWidth ≠ 0
      then some (resetViewScaleIndex (w / maxPageWidth))
      else none

/-! ## Page/Field Loader: `loadFormFieldsAndPages`
(PDFEditor.tsx lines 138-166) -/

/-- The fields of a `PDFFormRawField` descriptor that the loader consults:
`editable`, `hidden`, the 0-indexed `page`, plus `name` as identity. -/
structure PDFFormRawField where
  editable : Bool
  hidden : Bool
  name : String
  page : Nat
deriving DecidableEq, Repr

/-- A Page Entry: one page (by its 1-indexed `pageNumber`) paired with its
filtered field descriptors (`PDFPageAndFormFields` without the proxy). -/
structure PDFPageAndFormFields where
  pageNumber : Nat
  fields : List PDFFormRawField
deriving DecidableEq, Repr

/-- The filter of `loadFormFieldsAndPages` (PDFEditor.tsx lines 148-155):
`rawField.editable && !rawField.hidden && rawField.page === proxy.pageNumber - 1`. -/
def rawFieldKeep (pageNumber : Nat) (f : PDFFormRawField) : Bool :=
  f.editable && !f.hidden && (f.page == pageNumber - 1)

/-- `loadFormFieldsAndPages` (PDFEditor.tsx lines 139-161): the raw
metadata is an object of descriptor lists (`Object.values` order kept as
the outer list order); for each page number `i = 1..numPages` the loop
pushes `{ proxy, fields }` with
`fields = Object.values(rawFormFields).flatMap((l) => l.filter(...))`. -/
def loadFormFieldsAndPages (numPages : Nat)
    (rawFormFields : List (List PDFFormRawField)) : List PDFPageAndFormFields :=
  (List.range numPages).map (fun k =>
    { pageNumber := k + 1
      fields := rawFormFields.flatMap (fun rawFields =>
        rawFields.filter (rawFieldKeep (k + 1))) })

/-! ## Field Reconciler, read side: `getAllFieldsValue`
(PDFEditor.tsx lines 282-304) -/

/-- One live field control as `getAllFieldsValue` sees it: a DOM
`input`/`select` element with a `type` string (`ctype`), a `name`, a
`value`, a `checked` flag, and for selects an `options` list (of option
`value`s) with a `selectedIndex`. -/
structure FieldControl where
  name : String
  ctype : String
  value : String
  checked : Bool
  options : List String
  selectedIndex : Nat
deriving DecidableEq, Repr

/-- The per-control switch of `getAllFieldsValue`
(PDFEditor.tsx lines 287-297): `"checkbox"` reads the checked state as
`"On"`/`"Off"`, `"combobox"` reads `options[selectedIndex].value` (a
throw on an out-of-range index is modelled by `none`), every other type
falls through to `field.value`. -/
def controlValue (c : FieldControl) : Option String :=
  if c.ctype = "checkbox" then some (if c.checked then "On" else "Off")
  else if c.ctype = "combobox" then c.options.get? c.selectedIndex
  else some c.value

/-- The `PDFFormFields` value map, keyed by field name; a missing key
reads as `undefined` (`none`). -/
def PDFFormFieldsMap := String → Option String

/-- The empty object `{}`. -/
def emptyFields : PDFFormFieldsMap := fun _ => none

/-- Object spread `{...m, [k]: v}`: the new binding shadows any earlier
binding of the same key. -/
def insertField (m : PDFFormFieldsMap) (k v : String) : PDFFormFieldsMap :=
  fun n => if n = k then some v else m n

/-- Folding a list of `(name, value)` singletons into a map, left to
right, starting from `m`. -/
def insertAllFields (m : PDFFormFieldsMap) (pairs : List (String × String)) :
    PDFFormFieldsMap :=
  pairs.foldl (fun m p => insertField m p.1 p.2) m

/-- Folding the mapped `{[name]: value}` singletons with
`reduce((result, cur) => ({...result, ...cur}), {})`
(PDFEditor.tsx lines 298-303). -/
def reduceFields (pairs : List (String × String)) : PDFFormFieldsMap :=
  insertAllFields emptyFields pairs

/-- The `.map((e) => ({[field.name]: value}))` step over the scanned
controls: each control becomes a `(name, value)` singleton; a throw in
the callback (the `none` from `controlValue`) aborts the whole map. -/
def readControls : List FieldControl → Option (List (String × String))
  | [] => some []
  | c :: rest =>
      match controlValue c, readControls rest with
      | some v, some pairs => some ((c.name, v) :: pairs)
      | _, _ => none

/-- `getAllFieldsValue` (PDFEditor.tsx lines 282-304): `none` for the
container models an absent `divRef.current` (the ternary's `: {}`
branch); otherwise every scanned control is mapped to a
`(name, value)` singleton and the singletons are folded left to right.
A `none` from `controlValue` (the throwing index access) propagates. -/
def getAllFieldsValue (container : Option (List FieldControl)) :
    Option PDFFormFieldsMap :=
  match container with
  | none => some emptyFields
  | some controls => (readControls controls).map reduceFields

/-! ## Field Reconciler, write side: the save-time loop of `onSaveAs`
(PDFEditor.tsx lines 377-398) -/

/-- The dynamic kind of a form-model field, one per `instanceof` branch
of the save loop. -/
inductive LibFieldKind
  | textField
  | checkBox
  | dropdown
  | optionList
  | radioGroup
deriving DecidableEq, Repr

/-- A form-model field (pdf-lib side): its name, kind, and current value
(text content, `"On"`/`"Off"` checked state, or selected option;
`none` models no value). -/
structure LibField where
  name : String
  kind : LibFieldKind
  value : Option String
deriving DecidableEq, Repr

/-- One iteration of the save loop (PDFEditor.tsx lines 379-398):
`value = formFields[field.getName()]` (`none` when the name is absent
from the map), then by kind: `setText(value)` writes the looked-up
value (clearing on `undefined`); a checkbox is checked when
`value === "On"` and unchecked otherwise; a dropdown gets
`select(value)`, modelled as setting the selection to the looked-up
value; option lists and radio groups are the loop's explicit no-op
branches. -/
def applyFormField (formFields : PDFFormFieldsMap) (f : LibField) : LibField :=
  let value := formFields f.name
  match f.kind with
  | .textField => { f with value := value }
  | .checkBox =>
      if value = some "On" then { f with value := some "On" }
      else { f with value := some "Off" }
  | .dropdown => { f with value := value }
  | .optionList => f
  | .radioGroup => f

/-- The whole save loop: `for (const field of form.getFields()) ...`. -/
def applyFormFields (formFields : PDFFormFieldsMap) (fields : List LibField) :
    List LibField :=
  fields.map (applyFormField formFields)

/-! ## `maxPageWidth` capture in `renderPages`
(PDFEditor.tsx lines 168-244, state at line 105) -/

/-- The running maximum of native (1.0×) page widths computed by the
`pages?.forEach` loop (PDFEditor.tsx lines 170-176):
`maxPageActualWidth` starts at 0 and takes `actualWidth` whenever
`actualWidth > maxPageActualWidth`. -/
def computeMaxActualWidth (pageWidths : List ℚ) : ℚ :=
  pageWidths.foldl (fun maxW w => if w > maxW then w else maxW) 0

/-- The effect of one `renderPages` pass on the stored `maxPageWidth`
state (PDFEditor.tsx lines 237-239): `if (maxPageWidth === 0)
setMaxPageWidth(maxPageActualWidth)`, otherwise the stored value is kept. -/
def renderPassMaxPageWidth (pageWidths : List ℚ) (maxPageWidth : ℚ) : ℚ :=
  if maxPageWidth = 0 then computeMaxActualWidth pageWidths else maxPageWidth

/-! ## Save busy flag
(PDFEditor.tsx lines 370-422 and the save button at lines 456-464) -/

/-- The save-related component state: the `isSaving` flag plus a counter
of save operations started (the observable side effect of entering
`onSaveAs`). -/
structure SaveUIState where
  isSaving : Bool
  saveStarts : Nat
deriving DecidableEq, Repr

/-- Save-related events: a click on the "Save as" button, and the
in-flight save running to completion. -/
inductive SaveEvent
  | clickSaveAs
  | saveCompleted
deriving DecidableEq, Repr

/-- The save state machine. The "Save as" button carries
`disabled={isSaving}` (PDFEditor.tsx line 461), and a disabled button
fires no click handler, so a click while `isSaving` leaves the state
unchanged; an enabled click enters `onSaveAs`, which immediately runs
`setIsSaving(true)` (line 371) and starts one save; the end of
`onSaveAs` runs `setIsSaving(false)` (line 421). -/
def saveStep (s : SaveUIState) : SaveEvent → SaveUIState
  | .clickSaveAs =>
      if s.isSaving then s
      else { isSaving := true, saveStarts := s.saveStarts + 1 }
  | .saveCompleted => { s with isSaving := false }

/-! ## Document-load effect
(PDFEditor.tsx lines 118-136) -/

/-- The document-related component state: `pdfDoc` (identified here by a
numeric document id) and `docReady`. -/
structure DocLoadState where
  pdfDoc : Option Nat
  docReady : Bool
deriving DecidableEq, Repr

/-- Events of the load effect: `loadDocument` starting (its synchronous
prefix up to the first `await`), the effect cleanup running on a source
change, and an in-flight `getDocument` promise resolving with a
document. -/
inductive DocLoadEvent
  | startLoad
  | cleanupEffect
  | resolveLoad (docId : Nat)
deriving DecidableEq, Repr

/-- One event of the load effect (PDFEditor.tsx lines 119-131).
`startLoad`: `setDocReady(false)` before awaiting `getDocument`.
`cleanupEffect`: `if (pdfDoc) { pdfDoc.destroy(); setPdfDoc(undefined);
setDocReady(false); }`. `resolveLoad d`: the continuation after the
await runs `setPdfDoc(d)` then `setDocReady(true)` — unconditionally,
with no check that this load is still the current one. -/
def docLoadStep (s : DocLoadState) : DocLoadEvent → DocLoadState
  | .startLoad => { s with docReady := false }
  | .cleanupEffect =>
      if s.pdfDoc.isSome then { pdfDoc := none, docReady := false } else s
  | .resolveLoad d => { pdfDoc := some d, docReady := true }

/-- A sequence of load-effect events applied in order. -/
def runDocLoad (s : DocLoadState) (events : List DocLoadEvent) : DocLoadState :=
  events.foldl docLoadStep s

/-! ## Concrete example data used in the theorems below -/

/-- Raw field metadata for the 3-page example: five editable+visible
descriptors split 2/0/3 across 0-indexed pages 0, 1, 2 (in two metadata
groups), plus one non-editable and one hidden descriptor on page 1. -/
def exampleRawFormFields : List (List PDFFormRawField) :=
  [[⟨true, false, "f1", 0⟩, ⟨true, false, "f2", 0⟩],
   [⟨true, false, "f3", 2⟩, ⟨false, false, "readonly1", 1⟩],
   [⟨true, false, "f4", 2⟩, ⟨true, true, "invisible1", 1⟩,
    ⟨true, false, "f5", 2⟩]]

/-- An unchecked checkbox control named `"agree"`. -/
def agreeControl : FieldControl :=
  { name := "agree", ctype := "checkbox", value := "", checked := false
    options := [], selectedIndex := 0 }

/-- A text control named `"name"` containing `"Alice"`. -/
def nameControl : FieldControl :=
  { name := "name", ctype := "text", value := "Alice", checked := false
    options := [], selectedIndex := 0 }

/-- A choice control with two options, the second selected. -/
def comboControl : FieldControl :=
  { name := "color", ctype := "combobox", value := "", checked := false
    options := ["red", "green"], selectedIndex := 1 }

/-- Two text controls sharing the name `"dup"` with different values. -/
def dupControlA : FieldControl :=
  { name := "dup", ctype := "text", value := "first", checked := false
    options := [], selectedIndex := 0 }

/-- Second control named `"dup"`. -/
def dupControlB : FieldControl :=
  { name := "dup", ctype := "text", value := "second", checked := false
    options := [], selectedIndex := 0 }

/-- A model checkbox field named `"x"` whose parsed value is checked
(`"On"`); its name appears in no value map below. -/
def checkedBoxField : LibField :=
  { name := "x", kind := .checkBox, value := some "On" }

/-! ## Helper lemmas -/

/-- Flat-mapping a filter over the groups equals filtering the flattened
list: the loader's `Object.values(...).flatMap((l) => l.filter(p))` is
the stable filter of the full flattened descriptor list. -/
theorem flatMap_filter_eq_filter_flatten {α : Type} (p : α → Bool) :
    ∀ xss : List (List α),
      xss.flatMap (fun xs => xs.filter p) = xss.flatten.filter p
  | [] => rfl
  | xs :: xss => by
      simp only [List.flatMap_cons, List.flatten_cons, List.filter_append,
        flatMap_filter_eq_filter_flatten p xss]

/-- Keys absent from the folded pairs are looked up in the initial map. -/
theorem insertAllFields_no_key (k : String) :
    ∀ (pairs : List (String × String)) (m : PDFFormFieldsMap),
      (∀ q ∈ pairs, q.1 ≠ k) → insertAllFields m pairs k = m k
  | [], _, _ => rfl
  | p :: pairs, m, h => by
      have hrest := insertAllFields_no_key k pairs (insertField m p.1 p.2)
        (fun q hq => h q (List.mem_cons_of_mem p hq))
      have hp : p.1 ≠ k := h p (List.mem_cons_self p pairs)
      simp only [insertAllFields, List.foldl_cons] at hrest ⊢
      rw [hrest]
      simp only [insertField]
      rw [if_neg (fun hk => hp hk.symm)]

/-- A key present in the initial map or among the folded pairs is
present after the fold. -/
theorem insertAllFields_mem (k : String) :
    ∀ (pairs : List (String × String)) (m : PDFFormFieldsMap),
      (m k ≠ none ∨ k ∈ pairs.map Prod.fst) →
      insertAllFields m pairs k ≠ none
  | [], m, h => by
      rcases h with h | h
      · exact h
      · simp at h
  | p :: pairs, m, h => by
      simp only [insertAllFields, List.foldl_cons]
      by_cases hk : k = p.1
      · exact insertAllFields_mem k pairs _ (Or.inl (by simp [insertField, hk]))
      · refine insertAllFields_mem k pairs _ ?_
        rcases h with h | h
        · exact Or.inl (by simpa [insertField, hk] using h)
        · simp only [List.map_cons, List.mem_cons] at h
          rcases h with h | h
          · exact absurd h hk
          · exact Or.inr h

/-- Every control whose `type` is not `"combobox"` yields a value. -/
theorem controlValue_isSome_of_ne (c : FieldControl)
    (h : c.ctype ≠ "combobox") : ∃ v, controlValue c = some v := by
  unfold controlValue
  by_cases hc : c.ctype = "checkbox"
  · refine ⟨if c.checked then "On" else "Off", ?_⟩
    simp [hc]
  · refine ⟨c.value, ?_⟩
    simp [hc, h]

/-- Mapping the per-control read over controls without a `"combobox"`
type succeeds and produces one pair per control, keyed by its name. -/
theorem readControls_total :
    ∀ controls : List FieldControl,
      (∀ c ∈ controls, c.ctype ≠ "combobox") →
      ∃ pairs,
        readControls controls = some pairs ∧
        pairs.map Prod.fst = controls.map FieldControl.name
  | [], _ => ⟨[], rfl, rfl⟩
  | c :: controls, h => by
      obtain ⟨v, hv⟩ := controlValue_isSome_of_ne c (h c (List.mem_cons_self c controls))
      obtain ⟨pairs, hpairs, hkeys⟩ := readControls_total controls
        (fun d hd => h d (List.mem_cons_of_mem c hd))
      refine ⟨(c.name, v) :: pairs, ?_, ?_⟩
      · simp [readControls, hv, hpairs]
      · simp [hkeys]

/-! ## Claim theorems -/

/-- C2: for every field rectangle, viewport height and scale, the
overlay placement computes `left = llx * scale`,
`top = pageViewportHeight - ury * scale`,
`width = (urx - llx) * scale`, `height = (ury - lly) * scale`,
flipping the bottom-left-origin page coordinates to top-left-origin
overlay pixels. -/
theorem overlay_placement_formula (r : FieldRect) (pageViewportHeight scale : ℚ) :
    placeOverlay r pageViewportHeight scale =
      { left := r.llx * scale
        top := pageViewportHeight - r.ury * scale
        width := (r.urx - r.llx) * scale
        height := (r.ury - r.lly) * scale } := by
  simp only [placeOverlay, scaleFieldRect, OverlayPlacement.mk.injEq]
  exact ⟨trivial, trivial, by ring, by ring⟩

/-- C5 counterexample: the initial zoom index is 6, and
`zoomLevels[6] = 1.25`, not `1.0`. -/
theorem initial_zoom_not_one :
    zoomLevels.get? initialZoomLevel = some 1.25 ∧
    zoomLevels.get? initialZoomLevel ≠ some 1.0 := by
  constructor
  · rfl
  · show some (1.25 : ℚ) ≠ some 1.0
    simp only [ne_eq, Option.some.injEq]
    norm_num

/-- C5 (amended): the initial (default) zoom index 6 selects the scale
factor 1.25× from the fixed list of allowed scale factors; 1.0× sits at
index 4. -/
theorem initial_zoom_selects_125 :
    initialZoomLevel = 6 ∧
    zoomLevels.get? initialZoomLevel = some 1.25 ∧
    zoomLevels.get? 4 = some 1.0 :=
  ⟨rfl, rfl, rfl⟩

/-- C6: evaluation of `resetViewScale` at target scale 0.5
(`divWidth = 50`, `maxPageWidth = 100`). The scan loop selects index 0,
but `setZoomLevel(closestZoomLevel || 6)` treats the number 0 as falsy
and stores index 6 instead, whose level (1.25) is farther from the
target than level 0 (0.67) — contradicting the claim. At target 1.3 the
loop selects index 6 (level 1.25) and the stored index agrees with the
claim's example. -/
theorem resetViewScale_zero_index_clobbered :
    (nearestLoop 0.5).2 = some 0 ∧
    resetViewScaleIndex 0.5 = 6 ∧
    resetViewScale (some 50) 100 = some 6 ∧
    jsAbs (0.5 - zoomLevels.getD 0 0) < jsAbs (0.5 - zoomLevels.getD 6 0) ∧
    (nearestLoop 1.3).2 = some 6 ∧
    resetViewScaleIndex 1.3 = 6 ∧
    zoomLevels.getD 6 0 = 1.25 := by
  have h05 : (nearestLoop 0.5).2 = some 0 := by
    norm_num [nearestLoop, zoomLevels, jsAbs, List.enum, List.enumFrom]
  have h13 : (nearestLoop 1.3).2 = some 6 := by
    norm_num [nearestLoop, zoomLevels, jsAbs, List.enum, List.enumFrom]
  have hidx05 : resetViewScaleIndex 0.5 = 6 := by
    rw [resetViewScaleIndex, h05]
    rfl
  have hdiv : ((50 : ℚ) / 100) = 0.5 := by norm_num
  refine ⟨h05, hidx05, ?_, ?_, h13, ?_, rfl⟩
  · rw [resetViewScale]
    rw [if_pos (by norm_num)]
    rw [hdiv, hidx05]
  · norm_num [zoomLevels, jsAbs]
  · rw [resetViewScaleIndex, h13]
    rfl

/-- C3: for every page count and raw metadata, the loader produces one
Page Entry per page in order 1..N, each holding exactly the stable
filter (`editable && !hidden && page = pageNumber - 1`) of the
flattened descriptor list in original metadata order; hidden or
non-editable descriptors never appear in any entry; and the 3-page
example whose five editable+visible fields split 2/0/3 across 0-indexed
pages yields field counts [2, 0, 3]. -/
theorem load_pages_shape :
    (∀ (numPages : Nat) (raw : List (List PDFFormRawField)),
      loadFormFieldsAndPages numPages raw =
        (List.range numPages).map (fun k =>
          { pageNumber := k + 1
            fields := raw.flatten.filter (rawFieldKeep (k + 1)) }) ∧
      ∀ e ∈ loadFormFieldsAndPages numPages raw, ∀ f ∈ e.fields,
        f.editable = true ∧ f.hidden = false ∧ f.page = e.pageNumber - 1) ∧
    (loadFormFieldsAndPages 3 exampleRawFormFields).map
        (fun e => e.fields.length) = [2, 0, 3] := by
  constructor
  · intro numPages raw
    constructor
    · simp only [loadFormFieldsAndPages, flatMap_filter_eq_filter_flatten]
    · intro e he f hf
      simp only [loadFormFieldsAndPages, List.mem_map, List.mem_range] at he
      obtain ⟨k, hk, rfl⟩ := he
      simp only [List.mem_flatMap, List.mem_filter] at hf
      obtain ⟨l, hl, hfl, hkeep⟩ := hf
      simp only [rawFieldKeep, Bool.and_eq_true, Bool.not_eq_true',
        beq_iff_eq] at hkeep
      exact ⟨hkeep.1.1, hkeep.1.2, hkeep.2⟩
  · decide

/-- C3 witness: the general shape theorem applied to the 3-page example
and to its first Page Entry and first field. -/
theorem load_pages_shape_witness :
    loadFormFieldsAndPages 3 exampleRawFormFields =
      (List.range 3).map (fun k =>
        { pageNumber := k + 1
          fields := exampleRawFormFields.flatten.filter (rawFieldKeep (k + 1)) }) ∧
    (⟨true, false, "f1", 0⟩ : PDFFormRawField).editable = true :=
  ⟨(load_pages_shape.1 3 exampleRawFormFields).1,
   ((load_pages_shape.1 3 exampleRawFormFields).2
      { pageNumber := 1
        fields := [⟨true, false, "f1", 0⟩, ⟨true, false, "f2", 0⟩] }
      (by decide)
      ⟨true, false, "f1", 0⟩ (by decide)).1⟩

/-- C4: the snapshot maps each control's name to a kind-determined
string — checked state as "On"/"Off" for checkboxes, the selected
option's value for a "combobox"-typed control, the raw `value`
otherwise; folding the scanned singletons is last-write-wins on
duplicate names; the unchecked-"agree"-plus-"name"="Alice" page yields
{agree: "Off", name: "Alice"}; two controls named "dup" yield the later
control's value. -/
theorem snapshot_control_values :
    (∀ c : FieldControl, c.ctype = "checkbox" →
      controlValue c = some (if c.checked then "On" else "Off")) ∧
    (∀ (c : FieldControl) (v : String), c.ctype = "combobox" →
      c.options.get? c.selectedIndex = some v → controlValue c = some v) ∧
    (∀ c : FieldControl, c.ctype ≠ "checkbox" → c.ctype ≠ "combobox" →
      controlValue c = some c.value) ∧
    (∀ (ps qs : List (String × String)) (k v : String),
      (∀ q ∈ qs, q.1 ≠ k) →
      reduceFields (ps ++ (k, v) :: qs) k = some v) ∧
    ((getAllFieldsValue (some [agreeControl, nameControl])).map
        (fun m => (m "agree", m "name")) = some (some "Off", some "Alice")) ∧
    ((getAllFieldsValue (some [dupControlA, dupControlB])).map
        (fun m => m "dup") = some (some "second")) := by
  refine ⟨?_, ?_, ?_, ?_, ?_, ?_⟩
  · intro c h
    unfold controlValue
    rw [if_pos h]
  · intro c v h hv
    unfold controlValue
    rw [if_neg (by rw [h]; decide), if_pos h]
    exact hv
  · intro c h1 h2
    unfold controlValue
    rw [if_neg h1, if_neg h2]
  · intro ps qs k v hqs
    show insertAllFields emptyFields (ps ++ (k, v) :: qs) k = some v
    rw [insertAllFields, List.foldl_append, List.foldl_cons]
    dsimp only
    have hskip := insertAllFields_no_key k qs
      (insertField (insertAllFields emptyFields ps) k v) hqs
    simp only [insertAllFields] at hskip
    rw [hskip]
    simp [insertField]
  · rfl
  · rfl

/-- C4 witness: the branch characterizations applied at concrete
controls and the fold applied at a singleton. -/
theorem snapshot_control_values_witness :
    controlValue agreeControl = some "Off" ∧
    controlValue comboControl = some "green" ∧
    controlValue nameControl = some "Alice" ∧
    reduceFields [("dup", "second")] "dup" = some "second" :=
  ⟨snapshot_control_values.1 agreeControl rfl,
   snapshot_control_values.2.1 comboControl "green" rfl rfl,
   snapshot_control_values.2.2.1 nameControl (by decide) (by decide),
   snapshot_control_values.2.2.2.1 [] [] "dup" "second" (by simp)⟩

/-- C1 counterexample: a model checkbox field named "x", parsed as
checked, reconciled against the empty value map — the save loop
unchecks it, so a model field whose name is absent from the value map
does not keep its parsed default. -/
theorem apply_mutates_absent_field :
    applyFormFields emptyFields [checkedBoxField] =
      [{ name := "x", kind := .checkBox, value := some "Off" }] ∧
    applyFormFields emptyFields [checkedBoxField] ≠ [checkedBoxField] := by
  constructor
  · rfl
  · decide

/-- C1 (amended): the save loop processes every model field regardless
of membership in the value map — a text or dropdown field receives the
looked-up value (absent names look up to `undefined`/`none`), a
checkbox ends checked exactly when the looked-up value is "On" and
unchecked otherwise; only the option-list and radio-group no-op
branches leave a field untouched. -/
theorem apply_sets_every_field (formFields : PDFFormFieldsMap) (f : LibField) :
    (f.kind = .textField →
      applyFormField formFields f = { f with value := formFields f.name }) ∧
    (f.kind = .checkBox →
      applyFormField formFields f = { f with
        value := some (if formFields f.name = some "On" then "On" else "Off") }) ∧
    (f.kind = .dropdown →
      applyFormField formFields f = { f with value := formFields f.name }) ∧
    (f.kind = .optionList → applyFormField formFields f = f) ∧
    (f.kind = .radioGroup → applyFormField formFields f = f) := by
  obtain ⟨n, k, v⟩ := f
  cases k <;> refine ⟨?_, ?_, ?_, ?_, ?_⟩ <;> intro h <;> try cases h
  · rfl
  · by_cases hv : formFields n = some "On" <;>
      simp [applyFormField, hv]
  · rfl
  · rfl
  · rfl

/-- C1 witness: the amended characterization applied to a text field
and the empty value map (the looked-up value is `none`, clearing it). -/
theorem apply_sets_every_field_witness :
    applyFormField emptyFields { name := "t", kind := .textField, value := some "d" } =
      { name := "t", kind := .textField, value := none } :=
  (apply_sets_every_field emptyFields
    { name := "t", kind := .textField, value := some "d" }).1 rfl

/-- C7 counterexample: trace — load 1 starts, the source changes (the
effect cleanup runs; it is a no-op because no document is set yet),
load 2 starts and resolves with document 2, then the stale load 1
resolves with document 1: the final state holds document 1, so the
stale result was applied over the newer load's state. -/
theorem stale_load_overwrites :
    runDocLoad { pdfDoc := none, docReady := false }
        [.startLoad, .cleanupEffect, .startLoad, .resolveLoad 2, .resolveLoad 1] =
      { pdfDoc := some 1, docReady := true } ∧
    ({ pdfDoc := some 1, docReady := true } : DocLoadState) ≠
      { pdfDoc := some 2, docReady := true } := by
  constructor
  · rfl
  · decide

/-- C7 (amended): the load continuation has no generation check —
resolving any in-flight load unconditionally overwrites the document
state, so the last load to resolve wins even when it was superseded by
a newer source. -/
theorem resolve_always_overwrites (s : DocLoadState) (d : Nat) :
    docLoadStep s (.resolveLoad d) = { pdfDoc := some d, docReady := true } := rfl

/-- C8 counterexample: the first document load (one page of native
width 100) captures 100 on its first render pass; a second document
load (one page of native width 200) then runs its first render pass and
the stored value stays 100 — the second load's maximum native width
(200) is never captured. -/
theorem max_width_not_recaptured :
    renderPassMaxPageWidth [100] 0 = 100 ∧
    renderPassMaxPageWidth [200] (renderPassMaxPageWidth [100] 0) = 100 ∧
    computeMaxActualWidth [200] = 200 ∧ (100 : ℚ) ≠ 200 := by
  have h1 : renderPassMaxPageWidth [100] 0 = 100 := by
    norm_num [renderPassMaxPageWidth, computeMaxActualWidth]
  refine ⟨h1, ?_, ?_, by norm_num⟩
  · rw [h1, renderPassMaxPageWidth, if_neg (by norm_num)]
  · norm_num [computeMaxActualWidth]

/-- C8 (amended): a render pass captures the maximum native page width
only while the stored value is 0 (the component's initial state); any
pass running with a nonzero stored value leaves it unchanged — the
capture therefore happens at most once per component lifetime, and
later document loads never recapture it. -/
theorem max_width_capture_once (pageWidths : List ℚ) (maxPageWidth : ℚ) :
    (maxPageWidth ≠ 0 →
      renderPassMaxPageWidth pageWidths maxPageWidth = maxPageWidth) ∧
    renderPassMaxPageWidth pageWidths 0 = computeMaxActualWidth pageWidths := by
  constructor
  · intro h
    rw [renderPassMaxPageWidth, if_neg h]
  · rw [renderPassMaxPageWidth, if_pos rfl]

/-- C8 witness: the amended theorem applied at a nonzero stored width. -/
theorem max_width_capture_once_witness :
    renderPassMaxPageWidth [200] 100 = 100 :=
  (max_width_capture_once [200] 100).1 (by norm_num)

/-- C9: while a save is in flight (`isSaving = true`) a click of the
save button leaves the component state unchanged — the button is
disabled, so the second save attempt has no additional side effect —
and the count of started saves only ever changes from a state with no
save in flight, so two save operations never interleave. -/
theorem reentrant_save_rejected (s : SaveUIState) :
    (s.isSaving = true → saveStep s .clickSaveAs = s) ∧
    (∀ e : SaveEvent, (saveStep s e).saveStarts ≠ s.saveStarts →
      s.isSaving = false ∧ (saveStep s e).isSaving = true) := by
  constructor
  · intro h
    simp [saveStep, h]
  · intro e he
    cases e
    · by_cases hs : s.isSaving
      · rw [saveStep, if_pos hs] at he
        exact absurd rfl he
      · refine ⟨by simpa using hs, ?_⟩
        rw [saveStep, if_neg hs]
    · exact absurd rfl he

/-- C9 witness: a click while a save is in flight is a no-op. -/
theorem reentrant_save_rejected_witness :
    saveStep { isSaving := true, saveStarts := 1 } .clickSaveAs =
      { isSaving := true, saveStarts := 1 } :=
  (reentrant_save_rejected { isSaving := true, saveStarts := 1 }).1 rfl

/-- C10: the `formFields` snapshot read is total on this component's
states — an absent container yields the empty map, a container with no
controls yields the empty map, and for any control list whose `type`s
are among those the component renders ("text"/"checkbox" inputs and
"select-one" selects) the scan succeeds and the resulting map has an
entry for every scanned control's name. -/
theorem formFields_read_total :
    getAllFieldsValue none = some emptyFields ∧
    getAllFieldsValue (some []) = some emptyFields ∧
    (∀ controls : List FieldControl,
      (∀ c ∈ controls,
        c.ctype = "text" ∨ c.ctype = "checkbox" ∨ c.ctype = "select-one") →
      ∃ m, getAllFieldsValue (some controls) = some m ∧
        ∀ c ∈ controls, m c.name ≠ none) := by
  refine ⟨rfl, rfl, ?_⟩
  intro controls hctl
  have hne : ∀ c ∈ controls, c.ctype ≠ "combobox" := by
    intro c hc
    rcases hctl c hc with h | h | h <;> rw [h] <;> decide
  obtain ⟨pairs, hpairs, hkeys⟩ := readControls_total controls hne
  refine ⟨reduceFields pairs, ?_, ?_⟩
  · show (readControls controls).map reduceFields = some (reduceFields pairs)
    rw [hpairs]
    rfl
  · intro c hc
    have hmem : c.name ∈ pairs.map Prod.fst := by
      rw [hkeys]
      exact List.mem_map_of_mem FieldControl.name hc
    exact insertAllFields_mem c.name pairs emptyFields (Or.inr hmem)

/-- C10 witness: the totality part applied at the concrete two-control
page. -/
theorem formFields_read_total_witness :
    ∃ m, getAllFieldsValue (some [agreeControl, nameControl]) = some m ∧
      ∀ c ∈ [agreeControl, nameControl], m c.name ≠ none :=
  formFields_read_total.2.2 [agreeControl, nameControl] (by decide)

end PDFEditorProof
